import Mathlib

/-!
Verification development for the dialog lifecycle controller of
`src/dialog/internal/dialog.ts` (material-web).

The component is shallowly embedded as an explicit state machine.
A `Config` holds the reactive fields of the `Dialog` element, the list of
in-flight `performTransition` routines, the number of queued native
`close` events, and a trace of observable effects (dispatched lifecycle
events, native close invocations, dismissal-promise resolutions,
redispatched native events).

Each `performTransition` call is modelled as a thread whose program
counter names the next atomic segment of the routine (the code between
two `await` suspension points); the scheduler (`step`) may interleave
thread segments with further property writes and native event
deliveries, matching the single-threaded cooperative scheduling of the
source.  Lit's batched update cycle (`willUpdate` followed by `updated`)
is modelled as running atomically after the property write that
triggered it, with `prev` playing the role of `changed.get('open')`
(`none` encodes the JavaScript `undefined` of the very first update).
-/

namespace MdDialog

/-- Default close action (`CLOSE_ACTION` in the source). -/
def CLOSE_ACTION : String := "close"

/-- Observable effects recorded in the trace. -/
inductive Ev where
  /-- a `CustomEvent` dispatched by `dispatchActionEvent`; `action` is the
  `detail.action` value (`none` models JavaScript `undefined`). -/
  | lifecycle (type : String) (action : Option String)
  /-- invocation of the native `dialogElement.close(returnValue)`. -/
  | nativeCloseCall (returnValue : String)
  /-- resolution of the pending dismissal promise by `handleDialogDismiss`. -/
  | resolveDismiss
  /-- `redispatchEvent(this, event)` at the end of `handleDialogDismiss`. -/
  | redispatch (type : String)
deriving DecidableEq, Repr

/-- Program counter of an in-flight `performTransition` routine.  Each
value names the next atomic segment (code between `await`s) to run. -/
inductive PC where
  /-- from the first `await this.updateComplete` up to `await promise`:
  focus, `showingOpen = open`, dispatch of the pre-transition event. -/
  | seg1
  /-- after the duration wait: clear `opening`/`closing`, possibly invoke
  the native close and start waiting on the dismissal promise. -/
  | seg2
  /-- suspended on `await closedPromise`. -/
  | seg2wait
  /-- the routine has returned. -/
  | done
deriving DecidableEq, Repr

/-- One in-flight `performTransition` routine. -/
structure Thread where
  pc : PC
  /-- the `shouldDispatchAction` argument captured at spawn time. -/
  shouldDispatch : Bool
  /-- whether this routine's dismissal promise has been resolved. -/
  resolved : Bool
deriving DecidableEq, Repr

/-- The reactive fields of the `Dialog` element (plus the observable
state of its native `<dialog>` collaborator). -/
structure DialogState where
  open' : Bool
  opening : Bool
  closing : Bool
  showingOpen : Bool
  currentAction : Option String
  defaultAction : String
  escapeKeyAction : String
  scrimClickAction : String
  /-- `dialogElement.open` of the native modal primitive. -/
  nativeOpen : Bool
  /-- whether `dialogClosedResolver` is set. -/
  resolverPending : Bool
  /-- Lit's `hasUpdated` (also used as "the queried child elements
  exist"). -/
  hasUpdated : Bool
deriving DecidableEq, Repr

/-- Full configuration: element state, in-flight transition routines,
queued native `close` events and the observable trace. -/
structure Config where
  st : DialogState
  threads : List Thread
  pendingNativeClose : Nat
  trace : List Ev
deriving DecidableEq, Repr

/-- `dispatchActionEvent(type)`: dispatch a `CustomEvent` whose detail
action is `'none'` when open, else `currentAction` (source lines
310-313). -/
def dispatchActionEvent (ty : String) (c : Config) : Config :=
  { c with trace := c.trace ++
      [Ev.lifecycle ty (if c.st.open' then some "none" else c.st.currentAction)] }

/-- JavaScript `a || b` for `a : string | undefined` (falsy on
`undefined` and on the empty string). -/
def jsOrDefault (a : Option String) (b : String) : String :=
  match a with
  | none => b
  | some s => if s = "" then b else s

/-- One Lit update cycle in which `open` is in the changed map:
`willUpdate` (recompute `opening`/`closing` from the current `open` and
the previous value `prev`; `prev = none` models `undefined`) followed by
`updated` (call `showModal()` when open; spawn a `performTransition`
routine with `shouldDispatchAction = (changed.get('open') !== undefined)`). -/
def updateCycleOpen (prev : Option Bool) (c : Config) : Config :=
  { c with
    st := { c.st with
      opening := c.st.open',
      closing := !c.st.open' && prev.getD false,
      nativeOpen := c.st.open' || c.st.nativeOpen,
      hasUpdated := true },
    threads := c.threads ++ [⟨PC.seg1, prev.isSome, false⟩] }

/-- A write to the reactive `open` property.  Writing the current value
schedules no update (Lit's default `hasChanged`); a genuine change runs
an update cycle with the old value recorded. -/
def setOpen (v : Bool) (c : Config) : Config :=
  if v = c.st.open' then c
  else updateCycleOpen (some c.st.open') { c with st := { c.st with open' := v } }

/-- `show()`: equivalent to setting `open = true` (source lines 134-136). -/
def showDialog (c : Config) : Config := setOpen true c

/-- `close(action)`: record the action as `currentAction`, then set
`open = false` (source lines 142-145). -/
def close (a : String) (c : Config) : Config :=
  setOpen false { c with st := { c.st with currentAction := some a } }

/-- Lines 352-353 of `handleDialogDismiss`: call and clear
`dialogClosedResolver` when one is pending, resolving the promise any
routine suspended at `await closedPromise` is waiting on. -/
def resolveDismissStep (c : Config) : Config :=
  if c.st.resolverPending then
    { c with
      st := { c.st with resolverPending := false },
      threads := c.threads.map (fun t => { t with resolved := true }),
      trace := c.trace ++ [Ev.resolveDismiss] }
  else c

/-- The shared tail of `handleDialogDismiss` (source lines 352-357):
resolve any pending dismissal promise, set `open = false`, clear
`opening`/`closing`, redispatch the native event.  Also returns the
value of `open` before the write (Lit's recorded old value), which
decides whether an update cycle follows. -/
def dismissBody (ty : String) (c : Config) : Config × Bool :=
  let c1 := resolveDismissStep c
  (⟨{ c1.st with open' := false, opening := false, closing := false },
    c1.threads, c1.pendingNativeClose,
    c1.trace ++ [Ev.redispatch ty]⟩, c1.st.open')

/-- `handleDialogDismiss` for a native `close` event; when the handler's
write to `open` was a genuine change, the batched update cycle follows. -/
def handleDialogDismissClose (c : Config) : Config :=
  let r := dismissBody "close" c
  if r.2 then updateCycleOpen (some true) r.1 else r.1

/-- `handleDialogDismiss` for a native `cancel` event (source lines
340-358): record `escapeKeyAction` as `currentAction`; when that action
is empty, `preventDefault()` and return with no further change (the
native dialog stays open and queues no close event); otherwise run the
shared tail, after which the unprevented default closes the native
dialog and queues its `close` event, and then the update cycle runs. -/
def handleDialogDismissCancel (c : Config) : Config :=
  let c0 := { c with st := { c.st with currentAction := some c.st.escapeKeyAction } }
  if c.st.escapeKeyAction = "" then c0
  else
    let r := dismissBody "cancel" c0
    let c2 := { r.1 with
      st := { r.1.st with nativeOpen := false },
      pendingNativeClose := r.1.pendingNativeClose + 1 }
    if r.2 then updateCycleOpen (some true) c2 else c2

/-- The final segment of `performTransition`: dispatch the
post-transition event when `shouldDispatchAction`, then clear
`currentAction` (source lines 304-307). -/
def seg3Body (i : Nat) (t : Thread) (c : Config) : Config :=
  let c1 :=
    if t.shouldDispatch then
      dispatchActionEvent (if c.st.open' then "opened" else "closed") c
    else c
  { c1 with
    st := { c1.st with currentAction := none },
    threads := c1.threads.set i { t with pc := PC.done } }

/-- Advance in-flight routine `i` by one atomic segment (source lines
265-308). -/
def runThreadStep (i : Nat) (c : Config) : Config :=
  match c.threads[i]? with
  | none => c
  | some t =>
    match t.pc with
    | PC.seg1 =>
      let c1 := { c with
        st := { c.st with showingOpen := c.st.open' },
        threads := c.threads.set i { t with pc := PC.seg2 } }
      if t.shouldDispatch then
        dispatchActionEvent (if c1.st.open' then "opening" else "closing") c1
      else c1
    | PC.seg2 =>
      let c1 := { c with st := { c.st with opening := false, closing := false } }
      if !c1.st.open' && c1.st.nativeOpen then
        { c1 with
          st := { c1.st with resolverPending := true, nativeOpen := false },
          trace := c1.trace ++
            [Ev.nativeCloseCall (jsOrDefault c1.st.currentAction c1.st.defaultAction)],
          pendingNativeClose := c1.pendingNativeClose + 1,
          threads := c1.threads.set i { t with pc := PC.seg2wait, resolved := false } }
      else
        seg3Body i t c1
    | PC.seg2wait =>
      if t.resolved then seg3Body i t c else c
    | PC.done => c

/-- The action resolution of `handleDialogClick` (source lines 364-369):
the clicked element's action attribute when present, else
`scrimClickAction` for a click whose composed path misses the container
(a scrim click; the container exists once rendered), else the empty
string. -/
def clickAction (targetAttr : Option String) (inContainerPath : Bool)
    (c : Config) : String :=
  match targetAttr with
  | some s => s
  | none =>
    if c.st.hasUpdated && !inContainerPath then c.st.scrimClickAction else ""

/-- `handleDialogClick` (source lines 360-373): ignore clicks while
closed; otherwise record the resolved action as `currentAction` and call
`close` only when that action is non-empty. -/
def handleDialogClick (targetAttr : Option String) (inContainerPath : Bool)
    (c : Config) : Config :=
  if !c.st.open' then c
  else
    if clickAction targetAttr inContainerPath c ≠ "" then
      close (clickAction targetAttr inContainerPath c)
        { c with st := { c.st with
            currentAction := some (clickAction targetAttr inContainerPath c) } }
    else
      { c with st := { c.st with
          currentAction := some (clickAction targetAttr inContainerPath c) } }

/-- External stimuli and scheduler choices. -/
inductive Act where
  /-- Lit's very first update (`changed.get('open') = undefined`). -/
  | initialUpdate
  /-- a direct write to the reactive `open` property. -/
  | setOpenProp (v : Bool)
  /-- `show()`. -/
  | callShow
  /-- `close(a)`. -/
  | callClose (a : String)
  /-- run the next segment of in-flight routine `i`. -/
  | runThread (i : Nat)
  /-- deliver one queued native `close` event. -/
  | deliverNativeClose
  /-- a user cancellation gesture (native `cancel` event) while the
  native dialog is open. -/
  | cancelGesture
  /-- a click on the dialog surface. -/
  | click (targetAttr : Option String) (inContainerPath : Bool)
deriving DecidableEq, Repr

/-- One scheduler step. -/
def step (c : Config) (a : Act) : Config :=
  match a with
  | Act.initialUpdate => if c.st.hasUpdated then c else updateCycleOpen none c
  | Act.setOpenProp v => setOpen v c
  | Act.callShow => showDialog c
  | Act.callClose s => close s c
  | Act.runThread i => runThreadStep i c
  | Act.deliverNativeClose =>
    match c.pendingNativeClose with
    | 0 => c
    | n + 1 => handleDialogDismissClose { c with pendingNativeClose := n }
  | Act.cancelGesture =>
    if c.st.nativeOpen then handleDialogDismissCancel c else c
  | Act.click ta inc => handleDialogClick ta inc c

/-- Run a list of steps. -/
def run (c : Config) (acts : List Act) : Config := acts.foldl step c

/-- State of a freshly constructed dialog with the given configuration
strings. -/
def initConfig (da esc scrim : String) : Config :=
  { st := { open' := false, opening := false, closing := false,
            showingOpen := false, currentAction := none,
            defaultAction := da, escapeKeyAction := esc,
            scrimClickAction := scrim, nativeOpen := false,
            resolverPending := false, hasUpdated := false },
    threads := [], pendingNativeClose := 0, trace := [] }

/-- A freshly constructed dialog with all action properties at their
default `CLOSE_ACTION`. -/
def initConfigDefault : Config := initConfig CLOSE_ACTION CLOSE_ACTION CLOSE_ACTION

/-- A routine that has not yet run its flag-clearing segment. -/
def liveFlag (t : Thread) : Bool := t.pc == PC.seg1 || t.pc == PC.seg2

/-- A routine whose `showingOpen := open` segment is still to run. -/
def atSeg1 (t : Thread) : Bool := t.pc == PC.seg1

/-- Inductive invariant: `opening` and `closing` are never both set;
`showingOpen` agrees with `open` unless a routine still has its first
segment to run; a set `opening` or `closing` flag is owned by a routine
that will clear it. -/
def Inv (c : Config) : Prop :=
  (c.st.opening && c.st.closing) = false
  ∧ (c.threads.any atSeg1 = true ∨ c.st.showingOpen = c.st.open')
  ∧ (c.st.opening = true → c.threads.any liveFlag = true)
  ∧ (c.st.closing = true → c.threads.any liveFlag = true)

/-- The run of the spec scenario for `close('')` under the default
configuration: first render, a full `show()` transition, then a full
`close('')` transition. -/
def closeEmptyActionRun : Config :=
  run initConfigDefault
    [Act.initialUpdate, Act.runThread 0, Act.runThread 0, Act.callShow,
     Act.runThread 1, Act.runThread 1, Act.callClose "", Act.runThread 2,
     Act.runThread 2, Act.deliverNativeClose, Act.runThread 2]

/-- A dialog at rest in the open state with default action properties. -/
def openQuiescentConfig : Config :=
  { st := { open' := true, opening := false, closing := false, showingOpen := true,
            currentAction := none, defaultAction := CLOSE_ACTION,
            escapeKeyAction := CLOSE_ACTION, scrimClickAction := CLOSE_ACTION,
            nativeOpen := true, resolverPending := false, hasUpdated := true },
    threads := [], pendingNativeClose := 0, trace := [] }

/-- An open dialog whose `escapeKeyAction` is the empty string. -/
def cancelDisabledConfig : Config :=
  run (initConfig CLOSE_ACTION "" CLOSE_ACTION) [Act.callShow]

/-- A slotted DOM element as seen by `getFocusElement`: whether it
carries the `[autofocus]` marker, and its child elements in document
order. -/
inductive DomEl where
  | mk (autofocus : Bool) (children : List DomEl)

def DomEl.autofocus : DomEl → Bool
  | .mk af _ => af

def DomEl.children : DomEl → List DomEl
  | .mk _ cs => cs

mutual
/-- First element carrying the marker in document (pre-order) traversal,
the root included; `preorderAutofocusList` scans a forest in order.
This is the specification-side description of the search: the first
match over footer-then-content slotted elements, each element itself
before its descendants. -/
def preorderAutofocus : DomEl → Option DomEl
  | .mk af cs => if af then some (.mk af cs) else preorderAutofocusList cs

def preorderAutofocusList : List DomEl → Option DomEl
  | [] => none
  | e :: es =>
    match preorderAutofocus e with
    | some x => some x
    | none => preorderAutofocusList es
end

/-- `el.querySelector('[autofocus]')`: the first marked strict
descendant in document order. -/
def querySelectorAutofocus (e : DomEl) : Option DomEl :=
  preorderAutofocusList e.children

/-- The `for` loop of `getFocusElement` over the flattened assigned
elements: per element, the element itself when it matches, else its
`querySelector` result; first hit wins. -/
def getFocusElementLoop : List DomEl → Option DomEl
  | [] => none
  | el :: rest =>
    match (if el.autofocus then some el else querySelectorAutofocus el) with
    | some focusEl => some focusEl
    | none => getFocusElementLoop rest

/-- `getFocusElement()` (source lines 382-393): scan the footer slot's
assigned elements, then the content slot's.  `focus()` (lines 395-397)
focuses the result and performs no focus change when it is `none`. -/
def getFocusElement (footerSlotted contentSlotted : List DomEl) : Option DomEl :=
  getFocusElementLoop (footerSlotted ++ contentSlotted)

mutual
/-- Whether the tree (root included) contains any marked element;
`anyAutofocusList` ranges over a forest. -/
def anyAutofocus : DomEl → Bool
  | .mk af cs => af || anyAutofocusList cs

def anyAutofocusList : List DomEl → Bool
  | [] => false
  | e :: es => anyAutofocus e || anyAutofocusList es
end

/-- Observable metrics of the content region.  `scrollTop` is a float in
the DOM and is modelled as a rational; the height properties are
integers. -/
structure ScrollMetrics where
  scrollTop : ℚ
  scrollHeight : ℤ
  offsetHeight : ℤ
  clientHeight : ℤ
deriving DecidableEq, Repr

/-- Result of `getContentScrollInfo`. -/
structure ScrollInfo where
  isScrollable : Bool
  isAtScrollTop : Bool
  isAtScrollBottom : Bool
deriving DecidableEq, Repr

/-- `getContentScrollInfo()` (source lines 147-159).  Before the first
update or without a content element it reports not scrollable and both
at-top and at-bottom; otherwise it compares the live metrics, with
`Math.round` modelled by `round` (both round half away from the floor). -/
def getContentScrollInfo (hasUpdated : Bool)
    (contentElement : Option ScrollMetrics) : ScrollInfo :=
  match hasUpdated, contentElement with
  | false, _ => { isScrollable := false, isAtScrollTop := true, isAtScrollBottom := true }
  | _, none => { isScrollable := false, isAtScrollTop := true, isAtScrollBottom := true }
  | true, some m =>
    { isScrollable := decide (m.offsetHeight < m.scrollHeight),
      isAtScrollTop := decide (m.scrollTop = 0),
      isAtScrollBottom :=
        decide (|round ((m.scrollHeight : ℚ) - m.scrollTop) - m.clientHeight| ≤ 2) }

/-- Updating one position of a list preserves `any p` provided the
update cannot turn the element at that position from satisfying `p` to
violating it. -/
theorem any_set_mono {α : Type} (p : α → Bool) :
    ∀ (l : List α) (i : Nat) (t t' : α), l[i]? = some t →
      (p t = true → p t' = true) → l.any p = true → (l.set i t').any p = true := by
  intro l
  induction l with
  | nil => intro i t t' h; simp at h
  | cons x xs ih =>
    intro i t t' hget himp hany
    rw [List.any_cons, Bool.or_eq_true] at hany
    cases i with
    | zero =>
      rw [List.getElem?_cons_zero, Option.some_inj] at hget
      subst hget
      rw [List.set_cons_zero, List.any_cons, Bool.or_eq_true]
      rcases hany with hx | hxs
      · exact Or.inl (himp hx)
      · exact Or.inr hxs
    | succ n =>
      rw [List.getElem?_cons_succ] at hget
      rw [List.set_cons_succ, List.any_cons, Bool.or_eq_true]
      rcases hany with hx | hxs
      · exact Or.inl hx
      · exact Or.inr (ih n t t' hget himp hxs)

/-- An update cycle for `open` re-establishes the invariant outright:
`opening`/`closing` are recomputed in a mutually exclusive way and the
freshly spawned routine owns them. -/
theorem inv_updateCycleOpen (prev : Option Bool) (c : Config) :
    Inv (updateCycleOpen prev c) := by
  refine ⟨?_, Or.inl ?_, fun h => ?_, fun h => ?_⟩ <;>
    simp [updateCycleOpen, atSeg1, liveFlag, List.any_append] <;>
    cases c.st.open' <;> simp

/-- Writes to `open` preserve the invariant. -/
theorem inv_setOpen (v : Bool) (c : Config) (h : Inv c) : Inv (setOpen v c) := by
  unfold setOpen
  split
  · exact h
  · exact inv_updateCycleOpen _ _

/-- `close` preserves the invariant. -/
theorem inv_close (a : String) (c : Config) (h : Inv c) : Inv (close a c) :=
  inv_setOpen _ _ h


/-- Resolving the pending dismissal promise preserves the invariant
(program counters are untouched). -/
theorem inv_resolveDismissStep (c : Config) (h : Inv c) : Inv (resolveDismissStep c) := by
  obtain ⟨m, s, lo, lc⟩ := h
  unfold resolveDismissStep
  split
  · refine ⟨m, ?_, fun ho => ?_, fun hc => ?_⟩
    · rcases s with hs | hs
      · left; rw [List.any_map]; exact hs
      · right; exact hs
    · rw [List.any_map]; exact lo ho
    · rw [List.any_map]; exact lc hc
  · exact ⟨m, s, lo, lc⟩

/-- The native `close` handler preserves the invariant. -/
theorem inv_handleDialogDismissClose (c : Config) (h : Inv c) :
    Inv (handleDialogDismissClose c) := by
  have h1 := inv_resolveDismissStep c h
  obtain ⟨m, s, lo, lc⟩ := h1
  simp only [handleDialogDismissClose, dismissBody]
  split
  · exact inv_updateCycleOpen _ _
  · rename_i hfalse
    have ho : (resolveDismissStep c).st.open' = false := by
      cases hx : (resolveDismissStep c).st.open' <;> simp_all
    refine ⟨by simp, ?_, by simp, by simp⟩
    rcases s with hs | hs
    · exact Or.inl hs
    · right
      rw [ho] at hs
      exact hs


/-- The native `cancel` handler preserves the invariant. -/
theorem inv_handleDialogDismissCancel (c : Config) (h : Inv c) :
    Inv (handleDialogDismissCancel c) := by
  obtain ⟨m, s, lo, lc⟩ := h
  simp only [handleDialogDismissCancel, dismissBody]
  split
  · exact ⟨m, s, lo, lc⟩
  · have h0 : Inv { c with st := { c.st with currentAction := some c.st.escapeKeyAction } } :=
      ⟨m, s, lo, lc⟩
    have h1 := inv_resolveDismissStep _ h0
    obtain ⟨m1, s1, lo1, lc1⟩ := h1
    split
    · exact inv_updateCycleOpen _ _
    · rename_i hfalse
      have ho : (resolveDismissStep
          { c with st := { c.st with currentAction := some c.st.escapeKeyAction } }).st.open'
            = false := by
        cases hx : (resolveDismissStep
          { c with st := { c.st with currentAction := some c.st.escapeKeyAction } }).st.open'
        · rfl
        · exact absurd hx hfalse
      refine ⟨by simp, ?_, by simp, by simp⟩
      rcases s1 with hs | hs
      · exact Or.inl hs
      · right; rw [ho] at hs; exact hs

/-- Running a nonexistent routine is a no-op. -/
theorem runThreadStep_none (i : Nat) (c : Config) (hget : c.threads[i]? = none) :
    runThreadStep i c = c := by
  unfold runThreadStep; rw [hget]

/-- Running a finished routine is a no-op. -/
theorem runThreadStep_done (i : Nat) (c : Config) (t : Thread)
    (hget : c.threads[i]? = some t) (hpc : t.pc = PC.done) :
    runThreadStep i c = c := by
  obtain ⟨pc, sd, res⟩ := t
  cases hpc
  unfold runThreadStep
  rw [hget]

/-- Unfolding of the first transition segment. -/
theorem runThreadStep_seg1 (i : Nat) (c : Config) (t : Thread)
    (hget : c.threads[i]? = some t) (hpc : t.pc = PC.seg1) :
    runThreadStep i c =
      { c with
        st := { c.st with showingOpen := c.st.open' },
        threads := c.threads.set i { t with pc := PC.seg2 },
        trace := if t.shouldDispatch then
            c.trace ++ [Ev.lifecycle (if c.st.open' then "opening" else "closing")
              (if c.st.open' then some "none" else c.st.currentAction)]
          else c.trace } := by
  obtain ⟨pc, sd, res⟩ := t
  cases hpc
  unfold runThreadStep
  rw [hget]
  cases sd <;> simp [dispatchActionEvent]

/-- A routine suspended on an unresolved dismissal promise stays put. -/
theorem runThreadStep_seg2wait_unresolved (i : Nat) (c : Config) (t : Thread)
    (hget : c.threads[i]? = some t) (hpc : t.pc = PC.seg2wait) (hres : t.resolved = false) :
    runThreadStep i c = c := by
  obtain ⟨pc, sd, res⟩ := t
  cases hpc
  cases hres
  unfold runThreadStep
  rw [hget]
  rfl

/-- Once its promise resolves, a suspended routine runs its final
segment. -/
theorem runThreadStep_seg2wait_resolved (i : Nat) (c : Config) (t : Thread)
    (hget : c.threads[i]? = some t) (hpc : t.pc = PC.seg2wait) (hres : t.resolved = true) :
    runThreadStep i c = seg3Body i t c := by
  obtain ⟨pc, sd, res⟩ := t
  cases hpc
  cases hres
  unfold runThreadStep
  rw [hget]
  rfl

/-- Unfolding of the final transition segment. -/
theorem seg3Body_eq (i : Nat) (t : Thread) (c : Config) :
    seg3Body i t c =
      { c with
        st := { c.st with currentAction := none },
        threads := c.threads.set i { t with pc := PC.done },
        trace := if t.shouldDispatch then
            c.trace ++ [Ev.lifecycle (if c.st.open' then "opened" else "closed")
              (if c.st.open' then some "none" else c.st.currentAction)]
          else c.trace } := by
  unfold seg3Body
  cases t.shouldDispatch <;> simp [dispatchActionEvent]


/-- Unfolding of the post-duration segment. -/
theorem runThreadStep_seg2 (i : Nat) (c : Config) (t : Thread)
    (hget : c.threads[i]? = some t) (hpc : t.pc = PC.seg2) :
    runThreadStep i c =
      if (!c.st.open' && c.st.nativeOpen) = true then
        { c with
          st := { c.st with
                  opening := false
                  closing := false
                  resolverPending := true
                  nativeOpen := false },
          trace := c.trace ++
            [Ev.nativeCloseCall (jsOrDefault c.st.currentAction c.st.defaultAction)],
          pendingNativeClose := c.pendingNativeClose + 1,
          threads := c.threads.set i { t with pc := PC.seg2wait, resolved := false } }
      else
        seg3Body i t { c with st := { c.st with opening := false, closing := false } } := by
  obtain ⟨pc, sd, res⟩ := t
  cases hpc
  unfold runThreadStep
  rw [hget]

/-- The final transition segment preserves the invariant whenever the
finishing routine is past its first segment and either was suspended on
the dismissal promise or runs with the flags already cleared. -/
theorem inv_seg3Body (i : Nat) (t : Thread) (c : Config)
    (hget : c.threads[i]? = some t) (hne1 : t.pc ≠ PC.seg1) (h : Inv c)
    (hlive : t.pc = PC.seg2wait ∨ (c.st.opening = false ∧ c.st.closing = false)) :
    Inv (seg3Body i t c) := by
  obtain ⟨m, s, lo, lc⟩ := h
  rw [seg3Body_eq]
  have hat : atSeg1 t = false := by
    unfold atSeg1
    cases ht : t.pc <;> simp_all
  refine ⟨m, ?_, fun ho => ?_, fun hc => ?_⟩
  · rcases s with hs | hs
    · left
      refine any_set_mono _ _ _ _ _ hget ?_ hs
      intro hx
      rw [hat] at hx
      exact absurd hx (by decide)
    · right; exact hs
  · rcases hlive with hw | ⟨hop, _⟩
    · refine any_set_mono _ _ _ _ _ hget ?_ (lo ho)
      intro hx
      unfold liveFlag at hx
      rw [hw] at hx
      simp at hx
    · rw [hop] at ho; exact absurd ho (by decide)
  · rcases hlive with hw | ⟨_, hcl⟩
    · refine any_set_mono _ _ _ _ _ hget ?_ (lc hc)
      intro hx
      unfold liveFlag at hx
      rw [hw] at hx
      simp at hx
    · rw [hcl] at hc; exact absurd hc (by decide)

/-- Advancing any routine preserves the invariant. -/
theorem inv_runThreadStep (i : Nat) (c : Config) (h : Inv c) :
    Inv (runThreadStep i c) := by
  cases hget : c.threads[i]? with
  | none => rw [runThreadStep_none i c hget]; exact h
  | some t =>
    cases hpc : t.pc with
    | done => rw [runThreadStep_done i c t hget hpc]; exact h
    | seg1 =>
      obtain ⟨m, s, lo, lc⟩ := h
      rw [runThreadStep_seg1 i c t hget hpc]
      refine ⟨m, Or.inr rfl, fun ho => ?_, fun hc => ?_⟩
      · refine any_set_mono _ _ _ _ _ hget ?_ (lo ho)
        intro hx
        rfl
      · refine any_set_mono _ _ _ _ _ hget ?_ (lc hc)
        intro hx
        rfl
    | seg2 =>
      rw [runThreadStep_seg2 i c t hget hpc]
      obtain ⟨m, s, lo, lc⟩ := h
      have hat : atSeg1 t = false := by unfold atSeg1; rw [hpc]; decide
      split
      · refine ⟨rfl, ?_, ?_, ?_⟩
        · rcases s with hs | hs
          · left
            show (c.threads.set i { t with pc := PC.seg2wait, resolved := false }).any
              atSeg1 = true
            refine any_set_mono _ _ _ _ _ hget ?_ hs
            intro hx
            rw [hat] at hx
            exact absurd hx (by decide)
          · right; exact hs
        · intro hx; exact absurd (show false = true from hx) (by decide)
        · intro hx; exact absurd (show false = true from hx) (by decide)
      · refine inv_seg3Body i t
          { c with st := { c.st with opening := false, closing := false } }
          hget ?_ ?_ (Or.inr ⟨rfl, rfl⟩)
        · rw [hpc]; decide
        · exact ⟨rfl, s, fun hx => absurd (show false = true from hx) (by decide),
            fun hx => absurd (show false = true from hx) (by decide)⟩
    | seg2wait =>
      cases hres : t.resolved with
      | false => rw [runThreadStep_seg2wait_unresolved i c t hget hpc hres]; exact h
      | true =>
        rw [runThreadStep_seg2wait_resolved i c t hget hpc hres]
        refine inv_seg3Body i t c hget ?_ h (Or.inl hpc)
        rw [hpc]; decide

/-- The click handler preserves the invariant. -/
theorem inv_handleDialogClick (ta : Option String) (inc : Bool) (c : Config)
    (h : Inv c) : Inv (handleDialogClick ta inc c) := by
  obtain ⟨m, s, lo, lc⟩ := h
  unfold handleDialogClick
  split
  · exact ⟨m, s, lo, lc⟩
  · split
    · exact inv_close _ _ ⟨m, s, lo, lc⟩
    · exact ⟨m, s, lo, lc⟩

/-- Every scheduler step preserves the invariant. -/
theorem inv_step (c : Config) (a : Act) (h : Inv c) : Inv (step c a) := by
  cases a with
  | initialUpdate =>
    show Inv (if c.st.hasUpdated then c else updateCycleOpen none c)
    split
    · exact h
    · exact inv_updateCycleOpen _ _
  | setOpenProp v => exact inv_setOpen v c h
  | callShow => exact inv_setOpen true c h
  | callClose s => exact inv_close s c h
  | runThread i => exact inv_runThreadStep i c h
  | deliverNativeClose =>
    show Inv (match c.pendingNativeClose with
      | 0 => c
      | n + 1 => handleDialogDismissClose { c with pendingNativeClose := n })
    cases c.pendingNativeClose with
    | zero => exact h
    | succ n => exact inv_handleDialogDismissClose _ h
  | cancelGesture =>
    show Inv (if c.st.nativeOpen then handleDialogDismissCancel c else c)
    split
    · exact inv_handleDialogDismissCancel c h
    · exact h
  | click ta inc => exact inv_handleDialogClick ta inc c h

/-- The invariant is preserved by arbitrary finite runs. -/
theorem inv_run (acts : List Act) : ∀ c : Config, Inv c → Inv (run c acts) := by
  induction acts with
  | nil => intro c h; exact h
  | cons a as ih => intro c h; exact ih (step c a) (inv_step c a h)

/-- A freshly constructed dialog satisfies the invariant. -/
theorem inv_initConfig (da esc scrim : String) : Inv (initConfig da esc scrim) :=
  ⟨rfl, Or.inr rfl, fun hx => absurd (show false = true from hx) (by decide),
   fun hx => absurd (show false = true from hx) (by decide)⟩

/-- Claim C3: in every state reachable from construction by any
sequence of `show()`/`close()` calls, property writes to `open`, update
cycles, interleaved transition-sequence segments, native dismiss
deliveries, cancel gestures and clicks, the flags `opening` and
`closing` are never both true. -/
theorem C3_opening_closing_never_both (da esc scrim : String) (acts : List Act) :
    ((run (initConfig da esc scrim) acts).st.opening &&
      (run (initConfig da esc scrim) acts).st.closing) = false :=
  (inv_run acts (initConfig da esc scrim) (inv_initConfig da esc scrim)).1

/-- Claim C4: in any reachable state in which every spawned transition
sequence has run to completion, `opening` and `closing` are false and
`showingOpen` equals `open`. -/
theorem C4_quiescent_showingOpen_eq_open (da esc scrim : String) (acts : List Act)
    (hq : ∀ t ∈ (run (initConfig da esc scrim) acts).threads, t.pc = PC.done) :
    (run (initConfig da esc scrim) acts).st.opening = false ∧
    (run (initConfig da esc scrim) acts).st.closing = false ∧
    (run (initConfig da esc scrim) acts).st.showingOpen =
      (run (initConfig da esc scrim) acts).st.open' := by
  obtain ⟨m, s, lo, lc⟩ := inv_run acts _ (inv_initConfig da esc scrim)
  refine ⟨?_, ?_, ?_⟩
  · cases ho : (run (initConfig da esc scrim) acts).st.opening
    · rfl
    · exfalso
      obtain ⟨x, hx, hpx⟩ := List.any_eq_true.mp (lo ho)
      unfold liveFlag at hpx
      rw [hq x hx] at hpx
      exact absurd hpx (by decide)
  · cases hc : (run (initConfig da esc scrim) acts).st.closing
    · rfl
    · exfalso
      obtain ⟨x, hx, hpx⟩ := List.any_eq_true.mp (lc hc)
      unfold liveFlag at hpx
      rw [hq x hx] at hpx
      exact absurd hpx (by decide)
  · rcases s with hs | hs
    · exfalso
      obtain ⟨x, hx, hpx⟩ := List.any_eq_true.mp hs
      unfold atSeg1 at hpx
      rw [hq x hx] at hpx
      exact absurd hpx (by decide)
    · exact hs

/-- Witness for C4: a concrete quiescent run (first render followed by a
completed `show()` transition). -/
theorem C4_witness :
    (run (initConfig CLOSE_ACTION CLOSE_ACTION CLOSE_ACTION)
        [Act.initialUpdate, Act.runThread 0, Act.runThread 0, Act.callShow,
         Act.runThread 1, Act.runThread 1]).st.opening = false ∧
    (run (initConfig CLOSE_ACTION CLOSE_ACTION CLOSE_ACTION)
        [Act.initialUpdate, Act.runThread 0, Act.runThread 0, Act.callShow,
         Act.runThread 1, Act.runThread 1]).st.closing = false ∧
    (run (initConfig CLOSE_ACTION CLOSE_ACTION CLOSE_ACTION)
        [Act.initialUpdate, Act.runThread 0, Act.runThread 0, Act.callShow,
         Act.runThread 1, Act.runThread 1]).st.showingOpen =
      (run (initConfig CLOSE_ACTION CLOSE_ACTION CLOSE_ACTION)
        [Act.initialUpdate, Act.runThread 0, Act.runThread 0, Act.callShow,
         Act.runThread 1, Act.runThread 1]).st.open' :=
  C4_quiescent_showingOpen_eq_open CLOSE_ACTION CLOSE_ACTION CLOSE_ACTION
    [Act.initialUpdate, Act.runThread 0, Act.runThread 0, Act.callShow,
     Act.runThread 1, Act.runThread 1] (by decide)

/-- Claim C1 (refuted, evidencing the code bug): under the default
configuration, `close('')` dispatches `closing` and `closed` events
whose `detail.action` is the empty string, not `defaultAction`
(`'close'`); only the native `dialogElement.close` receives the
defaulted action.  `dispatchActionEvent` uses `currentAction` without
applying the default, contradicting the documentation of
`defaultAction` (source lines 62-72). -/
theorem C1_close_empty_action_dispatch :
    closeEmptyActionRun.trace =
      [Ev.lifecycle "opening" (some "none"), Ev.lifecycle "opened" (some "none"),
       Ev.lifecycle "closing" (some ""), Ev.nativeCloseCall "close",
       Ev.resolveDismiss, Ev.redispatch "close", Ev.lifecycle "closed" (some "")] ∧
    closeEmptyActionRun.st.defaultAction = "close" := by
  constructor <;> rfl

/-- Claim C2: for every non-empty action `a`, closing an open, quiescent
dialog via `close(a)` produces, in order: the `closing` event carrying
`a`, the native close invocation, the resolution of the dismissal
promise by the dismiss handler, the redispatched native event, and only
then the `closed` event carrying `a`. -/
theorem C2_close_transition_event_order (c : Config) (a : String) (ha : a ≠ "")
    (hopen : c.st.open' = true) (hnative : c.st.nativeOpen = true)
    (hthreads : c.threads = []) :
    (run c [Act.callClose a, Act.runThread 0, Act.runThread 0,
            Act.deliverNativeClose, Act.runThread 0]).trace =
      c.trace ++
        [Ev.lifecycle "closing" (some a), Ev.nativeCloseCall a, Ev.resolveDismiss,
         Ev.redispatch "close", Ev.lifecycle "closed" (some a)] := by
  simp [run, step, close, setOpen, hopen, hthreads, updateCycleOpen, runThreadStep,
    seg3Body, dispatchActionEvent, resolveDismissStep, dismissBody,
    handleDialogDismissClose, jsOrDefault, ha, hnative]

/-- Witness for C2 at `a = 'buy'` from a concrete open state. -/
theorem C2_witness :
    (run openQuiescentConfig [Act.callClose "buy", Act.runThread 0, Act.runThread 0,
        Act.deliverNativeClose, Act.runThread 0]).trace =
      openQuiescentConfig.trace ++
        [Ev.lifecycle "closing" (some "buy"), Ev.nativeCloseCall "buy",
         Ev.resolveDismiss, Ev.redispatch "close",
         Ev.lifecycle "closed" (some "buy")] :=
  C2_close_transition_event_order openQuiescentConfig "buy" (by decide) rfl rfl rfl

/-- Claim C5: a cancel gesture with `escapeKeyAction = ''` prevents the
platform default (the native dialog stays open and queues no close
event) and changes nothing except recording `escapeKeyAction` as
`currentAction`: `open`, `opening`, `closing`, `showingOpen`, the
pending-resolver state, all routines and the event trace are untouched. -/
theorem C5_cancel_disabled_no_state_change (c : Config)
    (hesc : c.st.escapeKeyAction = "") (hnative : c.st.nativeOpen = true) :
    step c Act.cancelGesture =
      { c with st := { c.st with currentAction := some "" } } := by
  simp [step, handleDialogDismissCancel, hesc, hnative]

/-- Witness for C5 on a concrete open dialog with empty
`escapeKeyAction`. -/
theorem C5_witness :
    step cancelDisabledConfig Act.cancelGesture =
      { cancelDisabledConfig with
        st := { cancelDisabledConfig.st with currentAction := some "" } } :=
  C5_cancel_disabled_no_state_change cancelDisabledConfig rfl rfl

/-- Claim C6: writing `open`'s current value triggers nothing:
`show()` or `open = true` while open, and `open = false` while closed,
leave the configuration unchanged; `close(a)` while closed only records
`a` as `currentAction` and neither spawns a transition nor dispatches
any event. -/
theorem C6_same_open_value_no_transition (c1 c2 : Config) (a : String)
    (h1 : c1.st.open' = true) (h2 : c2.st.open' = false) :
    step c1 Act.callShow = c1 ∧
    step c1 (Act.setOpenProp true) = c1 ∧
    step c2 (Act.setOpenProp false) = c2 ∧
    step c2 (Act.callClose a) =
      { c2 with st := { c2.st with currentAction := some a } } := by
  refine ⟨?_, ?_, ?_, ?_⟩ <;> simp [step, showDialog, close, setOpen, h1, h2]

/-- Witness for C6 on concrete open and closed dialogs. -/
theorem C6_witness :
    step openQuiescentConfig Act.callShow = openQuiescentConfig ∧
    step openQuiescentConfig (Act.setOpenProp true) = openQuiescentConfig ∧
    step initConfigDefault (Act.setOpenProp false) = initConfigDefault ∧
    step initConfigDefault (Act.callClose "x") =
      { initConfigDefault with
        st := { initConfigDefault.st with currentAction := some "x" } } :=
  C6_same_open_value_no_transition openQuiescentConfig initConfigDefault "x" rfl rfl

/-- Claim C7: the very first update (previous `open` undefined) spawns
its transition with `shouldDispatchAction = false` and the full initial
application dispatches no event, while every genuine later `open`
change spawns its transition with `shouldDispatchAction = true` and a
completed `show()` transition dispatches exactly its `opening`/`opened`
pair. -/
theorem C7_should_dispatch_first_update_only (c0 c1 c2 : Config) (v : Bool)
    (h0u : c0.st.hasUpdated = false) (h0o : c0.st.open' = false)
    (h0n : c0.st.nativeOpen = false) (h0t : c0.threads = [])
    (hv : v ≠ c2.st.open')
    (h1o : c1.st.open' = false) (h1n : c1.st.nativeOpen = false)
    (h1t : c1.threads = []) :
    (step c0 Act.initialUpdate).threads = [⟨PC.seg1, false, false⟩] ∧
    (run c0 [Act.initialUpdate, Act.runThread 0, Act.runThread 0]).trace = c0.trace ∧
    (step c2 (Act.setOpenProp v)).threads = c2.threads ++ [⟨PC.seg1, true, false⟩] ∧
    (run c1 [Act.callShow, Act.runThread 0, Act.runThread 0]).trace =
      c1.trace ++ [Ev.lifecycle "opening" (some "none"),
        Ev.lifecycle "opened" (some "none")] := by
  refine ⟨?_, ?_, ?_, ?_⟩
  · simp [step, updateCycleOpen, h0u, h0t]
  · simp [run, step, updateCycleOpen, runThreadStep, seg3Body, dispatchActionEvent,
      h0u, h0o, h0n, h0t]
  · simp [step, setOpen, updateCycleOpen, hv]
  · simp [run, step, showDialog, setOpen, updateCycleOpen, runThreadStep, seg3Body,
      dispatchActionEvent, h1o, h1n, h1t]

/-- Witness for C7 on freshly constructed dialogs. -/
theorem C7_witness :
    (step (initConfig CLOSE_ACTION CLOSE_ACTION CLOSE_ACTION)
        Act.initialUpdate).threads = [⟨PC.seg1, false, false⟩] ∧
    (run (initConfig CLOSE_ACTION CLOSE_ACTION CLOSE_ACTION)
        [Act.initialUpdate, Act.runThread 0, Act.runThread 0]).trace =
      (initConfig CLOSE_ACTION CLOSE_ACTION CLOSE_ACTION).trace ∧
    (step initConfigDefault (Act.setOpenProp true)).threads =
      initConfigDefault.threads ++ [⟨PC.seg1, true, false⟩] ∧
    (run initConfigDefault [Act.callShow, Act.runThread 0, Act.runThread 0]).trace =
      initConfigDefault.trace ++ [Ev.lifecycle "opening" (some "none"),
        Ev.lifecycle "opened" (some "none")] :=
  C7_should_dispatch_first_update_only (initConfig CLOSE_ACTION CLOSE_ACTION CLOSE_ACTION)
    initConfigDefault initConfigDefault true rfl rfl rfl rfl (by decide) rfl rfl rfl

/-- Claim C10: a click while open whose target has no action attribute
and whose composed path includes the container resolves the action to
the empty string and changes nothing else — no `close`, no transition,
no event; any click while closed changes nothing at all. -/
theorem C10_click_without_action_no_close (c1 c2 : Config) (ta : Option String)
    (inc : Bool) (h1 : c1.st.open' = true) (h2 : c2.st.open' = false) :
    step c1 (Act.click none true) =
      { c1 with st := { c1.st with currentAction := some "" } } ∧
    step c2 (Act.click ta inc) = c2 := by
  constructor
  · simp [step, handleDialogClick, clickAction, h1]
  · simp [step, handleDialogClick, h2]

/-- Witness for C10 on concrete open and closed dialogs. -/
theorem C10_witness :
    step openQuiescentConfig (Act.click none true) =
      { openQuiescentConfig with
        st := { openQuiescentConfig.st with currentAction := some "" } } ∧
    step initConfigDefault (Act.click (some "buy") false) = initConfigDefault :=
  C10_click_without_action_no_close openQuiescentConfig initConfigDefault
    (some "buy") false rfl rfl

/-- The `getFocusElement` loop computes exactly the document-order
first marked element of the scanned forest. -/
theorem getFocusElementLoop_eq_preorder (xs : List DomEl) :
    getFocusElementLoop xs = preorderAutofocusList xs := by
  induction xs with
  | nil => rfl
  | cons e es ih =>
    cases e with
    | mk af cs =>
      cases af
      · rw [getFocusElementLoop, preorderAutofocusList]
        rw [show preorderAutofocus (DomEl.mk false cs) = preorderAutofocusList cs
          from rfl]
        simp only [DomEl.autofocus, querySelectorAutofocus, DomEl.children,
          Bool.false_eq_true, if_false]
        cases preorderAutofocusList cs <;> simp [ih]
      · rw [getFocusElementLoop, preorderAutofocusList]
        rw [show preorderAutofocus (DomEl.mk true cs) = some (DomEl.mk true cs)
          from rfl]
        simp [DomEl.autofocus]

mutual
theorem preorderAutofocus_eq_none_iff (e : DomEl) :
    preorderAutofocus e = none ↔ anyAutofocus e = false := by
  cases e with
  | mk af cs =>
    cases af
    · rw [show preorderAutofocus (DomEl.mk false cs) = preorderAutofocusList cs
        from rfl]
      rw [show anyAutofocus (DomEl.mk false cs) = anyAutofocusList cs from by
        rw [anyAutofocus]; simp]
      exact preorderAutofocusList_eq_none_iff cs
    · rw [show preorderAutofocus (DomEl.mk true cs) = some (DomEl.mk true cs)
        from rfl]
      rw [show anyAutofocus (DomEl.mk true cs) = true from by
        rw [anyAutofocus]; simp]
      simp

theorem preorderAutofocusList_eq_none_iff (xs : List DomEl) :
    preorderAutofocusList xs = none ↔ anyAutofocusList xs = false := by
  cases xs with
  | nil => simp [preorderAutofocusList, anyAutofocusList]
  | cons e es =>
    rw [preorderAutofocusList, anyAutofocusList]
    cases h : preorderAutofocus e with
    | some x =>
      have he : anyAutofocus e = true := by
        cases ha : anyAutofocus e
        · rw [(preorderAutofocus_eq_none_iff e).mpr ha] at h; cases h
        · rfl
      simp [he]
    | none =>
      have he : anyAutofocus e = false := (preorderAutofocus_eq_none_iff e).mp h
      simp [he]
      exact preorderAutofocusList_eq_none_iff es
end

mutual
theorem preorderAutofocus_marked (e : DomEl) (x : DomEl) :
    preorderAutofocus e = some x → x.autofocus = true := by
  cases e with
  | mk af cs =>
    cases af
    · rw [show preorderAutofocus (DomEl.mk false cs) = preorderAutofocusList cs
        from rfl]
      exact preorderAutofocusList_marked cs x
    · rw [show preorderAutofocus (DomEl.mk true cs) = some (DomEl.mk true cs)
        from rfl]
      intro hx
      cases hx
      rfl

theorem preorderAutofocusList_marked (xs : List DomEl) (x : DomEl) :
    preorderAutofocusList xs = some x → x.autofocus = true := by
  cases xs with
  | nil => intro hx; cases hx
  | cons e es =>
    rw [preorderAutofocusList]
    cases h : preorderAutofocus e with
    | some y =>
      intro hx
      cases hx
      exact preorderAutofocus_marked e x h
    | none => exact preorderAutofocusList_marked es x
end

/-- Claim C8: the focus target is the first `[autofocus]` element in
document order over the footer slot's elements followed by the content
slot's (each element before its descendants); it is absent exactly when
no slotted element or descendant carries the marker (so `focus()`
changes nothing), and any returned element carries the marker. -/
theorem C8_focus_first_autofocus (fs cs : List DomEl) :
    getFocusElement fs cs = preorderAutofocusList (fs ++ cs) ∧
    (getFocusElement fs cs = none ↔ anyAutofocusList (fs ++ cs) = false) ∧
    (∀ x : DomEl, getFocusElement fs cs = some x → x.autofocus = true) := by
  refine ⟨getFocusElementLoop_eq_preorder _, ?_, ?_⟩
  · rw [getFocusElement, getFocusElementLoop_eq_preorder]
    exact preorderAutofocusList_eq_none_iff _
  · intro x hx
    rw [getFocusElement, getFocusElementLoop_eq_preorder] at hx
    exact preorderAutofocusList_marked _ x hx

/-- Claim C9: the scroll-divider computation returns not-scrollable /
at-top / at-bottom before the first update or without a content
element; once rendered, at-top holds iff `scrollTop = 0` and at-bottom
holds iff the rounded remaining scroll distance is within 2px of the
client height; and the spec's 500/200 scenario evaluates as claimed at
`scrollTop = 0` and `scrollTop = 300`. -/
theorem C9_scroll_info (m : ScrollMetrics) (om : Option ScrollMetrics) :
    getContentScrollInfo false om =
      { isScrollable := false, isAtScrollTop := true, isAtScrollBottom := true } ∧
    getContentScrollInfo true none =
      { isScrollable := false, isAtScrollTop := true, isAtScrollBottom := true } ∧
    ((getContentScrollInfo true (some m)).isAtScrollTop = true ↔ m.scrollTop = 0) ∧
    ((getContentScrollInfo true (some m)).isAtScrollBottom = true ↔
      |round ((m.scrollHeight : ℚ) - m.scrollTop) - m.clientHeight| ≤ 2) ∧
    ((getContentScrollInfo true (some m)).isScrollable = true ↔
      m.offsetHeight < m.scrollHeight) ∧
    getContentScrollInfo true (some ⟨0, 500, 200, 200⟩) =
      { isScrollable := true, isAtScrollTop := true, isAtScrollBottom := false } ∧
    getContentScrollInfo true (some ⟨300, 500, 200, 200⟩) =
      { isScrollable := true, isAtScrollTop := false, isAtScrollBottom := true } := by
  refine ⟨?_, rfl, ?_, ?_, ?_, ?_, ?_⟩
  · cases om <;> rfl
  · simp [getContentScrollInfo]
  · simp [getContentScrollInfo]
  · simp [getContentScrollInfo]
  · simp only [getContentScrollInfo, ScrollInfo.mk.injEq]
    norm_num
  · simp only [getContentScrollInfo, ScrollInfo.mk.injEq]
    norm_num

end MdDialog
